import Mathlib

/-!
Verification development for the finlight-client streaming subsystem.

The definitions below are a shallow embedding of the streaming client found
in the repository:

* `transformArticle`, `transformRawArticle` — `src/utils/index.ts`;
* `BaseWebSocketClient` (state fields, `trackArticle`, `isDuplicate`,
  `handleMessage`, `handleClose`, `handleReconnect`, `resetBackoff`, the
  `open` handler of `connect`) — the base websocket client;
* `WebSocketClient.getArticleIdentifier` — the enriched stream variant
  (`src/client/webSocketClient.ts`).

JavaScript dynamic values that occur in article records are modelled by the
inductive `JsVal`: `undefined`/`null` collapse to `.undefined` (both are falsy
and neither is ever inserted into the duplicate set), strings are `.str`,
finite numbers are `.num` over `ℚ`, and `Date` objects are `.date` carrying
their epoch-milliseconds value.  Wall-clock instants (`Date.now()`) are
natural numbers of milliseconds.
-/

/-- A JavaScript value as it occurs in article payload fields. -/
inductive JsVal where
  | undefined
  | str (s : String)
  | num (q : ℚ)
  | date (t : ℤ)
deriving DecidableEq, Repr

/-- JavaScript truthiness for `JsVal`: `undefined`/`null`, `""` and `0` are
falsy; every `Date` object is truthy. -/
def jsTruthy : JsVal → Bool
  | .undefined => false
  | .str s => decide (s ≠ "")
  | .num q => decide (q ≠ 0)
  | .date _ => true

/-- Decimal-string parsing used by `parseFloat` on numeric strings, e.g.
`"0.75"`.  Non-numeric strings (whose JS result would be `NaN`) are mapped to
`0`; no property below ever parses a non-numeric string. -/
def decToRat (s : String) : ℚ :=
  let neg := s.startsWith "-"
  let s1 := if neg then s.drop 1 else s
  let v : ℚ :=
    match s1.splitOn "." with
    | [i] => ((i.toNat?.getD 0 : ℕ) : ℚ)
    | [i, f] => ((i.toNat?.getD 0 : ℕ) : ℚ) + ((f.toNat?.getD 0 : ℕ) : ℚ) / ((10 : ℚ) ^ f.length)
    | _ => 0
  if neg then -v else v

/-- Epoch-milliseconds value of a JS `Date` constructed from a string
(`new Date(isoString)`).  No property below depends on the numeric value of a
parsed date — only on the `date`/`str` distinction — so the model replaces
calendar arithmetic by an injective character-code encoding of the string. -/
def dateFromIsoString (s : String) : ℤ :=
  s.data.foldl (fun a c => a * 1114112 + (c.toNat : ℤ)) 0

/-- Model of `new Date(x)`.  On a `Date` argument the copy has the same
timestamp; on a number the argument is taken as epoch milliseconds.  The
`.undefined` case is unreachable in the source (the call sites are guarded by a
truthiness test). -/
def jsNewDate : JsVal → JsVal
  | .str s => .date (dateFromIsoString s)
  | .date t => .date t
  | .num q => .date ⌊q⌋
  | .undefined => .undefined

/-- Model of `parseFloat(x)`.  On a number, `parseFloat(String(x))`
round-trips every finite JS number, hence the identity.  `Date`/`undefined`
arguments would yield `NaN`; they are unreachable in the source (the call
sites are guarded by a truthiness test) and left unchanged here. -/
def jsParseFloat : JsVal → JsVal
  | .str s => .num (decToRat s)
  | .num q => .num q
  | v => v

/-- One element of an article's `companies` array.  `confidence` is `.undefined`
when the key is absent; all other keys are carried verbatim in `extra`. -/
structure Company where
  confidence : JsVal
  extra : List (String × JsVal)
deriving DecidableEq, Repr

/-- An article record as handled by `transformArticle`.  Fields the
transformer inspects are explicit; `companies = none` models an absent (or
non-array) `companies` key, and all remaining keys are carried verbatim in
`extra`. -/
structure ArticleRec where
  link : JsVal
  title : JsVal
  publishDate : JsVal
  confidence : JsVal
  createdAt : JsVal
  companies : Option (List Company)
  extra : List (String × JsVal)
deriving DecidableEq, Repr

/-- The article object `{}` substituted by `msg.data || {}` when a
`sendArticle` frame carries no `data`. -/
def emptyArticle : ArticleRec :=
  { link := .undefined, title := .undefined, publishDate := .undefined, confidence := .undefined
    createdAt := .undefined, companies := none, extra := [] }

/-- `transformArticle` (src/utils/index.ts): spread the raw article, then
1. if `publishDate` is truthy, replace it by `new Date(publishDate)`;
2. if `companies` is an array, map each company to a copy whose
   `confidence` is `parseFloat(confidence)` when truthy and `undefined`
   otherwise;
3. if `confidence` is truthy, replace it by `parseFloat(confidence)`. -/
def transformArticle (rawArticle : ArticleRec) : ArticleRec :=
  let a1 :=
    if jsTruthy rawArticle.publishDate then
      { rawArticle with publishDate := jsNewDate rawArticle.publishDate }
    else rawArticle
  let a2 :=
    match a1.companies with
    | some cs =>
        { a1 with companies := some (cs.map fun company =>
            { company with confidence :=
                if jsTruthy company.confidence then jsParseFloat company.confidence
                else .undefined }) }
    | none => a1
  if jsTruthy a2.confidence then { a2 with confidence := jsParseFloat a2.confidence }
  else a2

/-- `transformRawArticle` (src/utils/index.ts): only the date coercion of
`publishDate`; every other field is carried verbatim. -/
def transformRawArticle (rawArticle : ArticleRec) : ArticleRec :=
  if jsTruthy rawArticle.publishDate then
    { rawArticle with publishDate := jsNewDate rawArticle.publishDate }
  else rawArticle

/-- `RECENT_ARTICLE_CACHE_SIZE` of `BaseWebSocketClient`. -/
def RECENT_ARTICLE_CACHE_SIZE : ℕ := 10

/-- Mutable state of a `BaseWebSocketClient` instance (the fields touched by
the handlers below), together with its read-only configuration.  The
insertion-ordered JS `Set` `recentArticleLinks` is modelled as a list in
insertion order; `Set.add` of a present element leaves the order unchanged. -/
structure WsState where
  /-- `_stop` in the source. -/
  stopFlag : Bool
  currentReconnectDelayMs : ℕ
  lastPongTime : ℕ
  connectionStartTime : ℕ
  /-- Wall-clock floor before which no reconnect should happen; `0` = none. -/
  reconnectAt : ℕ
  leaseId : Option String
  clientNonce : Option String
  recentArticleLinks : List JsVal
  baseReconnectDelayMs : ℕ
  maxReconnectDelayMs : ℕ
deriving DecidableEq, Repr

/-- `isDuplicate`: membership in the recent-identifier set. -/
def isDuplicate (s : WsState) (identifier : JsVal) : Bool :=
  decide (identifier ∈ s.recentArticleLinks)

/-- `trackArticle`: add the identifier to the set, then, if the size exceeds
`RECENT_ARTICLE_CACHE_SIZE`, remove the insertion-order first element —
guarded in the source by `if (firstLink)`, i.e. only when that first element
is truthy. -/
def trackArticle (links : List JsVal) (identifier : JsVal) : List JsVal :=
  let l1 := if identifier ∈ links then links else links ++ [identifier]
  if l1.length > RECENT_ARTICLE_CACHE_SIZE then
    match l1 with
    | [] => l1
    | firstLink :: rest => if jsTruthy firstLink then rest else firstLink :: rest
  else l1

/-- An inbound frame after JSON parsing, discriminated on `msg.action`
exactly as the `handleMessage` dispatch chain does.  Fields that the handler
only logs are still carried for faithfulness.  A frame whose action matches
none of the known strings is `.other`. -/
inductive Frame where
  | pong (t : Option ℕ)
  | admitMsg (leaseId serverNow clientNonce : Option String)
  | preempted (reason newLeaseId : Option String)
  | sendArticle (data : Option ArticleRec)
  | adminKick (retryAfter : Option ℕ)
  | errorMsg (data err : Option String)
  | other (action : String)
deriving DecidableEq, Repr

/-- JS `v || d` on an optional number (`msg.retryAfter || 900000`): `0` and
absence are falsy. -/
def jsOrNat (v : Option ℕ) (d : ℕ) : ℕ :=
  match v with
  | some n => if n = 0 then d else n
  | none => d

/-- JS `v || d` on an optional string: `""` and absence are falsy. -/
def jsStrOr (v : Option String) (d : String) : String :=
  match v with
  | some s => if s = "" then d else s
  | none => d

/-- `msg.data || msg.error || 'Unknown error'` of the `error` branch. -/
def errorDataOf (data err : Option String) : String :=
  jsStrOr data (jsStrOr err "Unknown error")

/-- Whether `pat` is a prefix of `l` (character lists). -/
def hasPref : List Char → List Char → Bool
  | [], _ => true
  | _ :: _, [] => false
  | p :: ps, c :: cs => p == c && hasPref ps cs

/-- Whether `pat` occurs as a contiguous run inside `l`. -/
def subIn (pat : List Char) : List Char → Bool
  | [] => hasPref pat []
  | c :: cs => hasPref pat (c :: cs) || subIn pat cs

/-- JS `s.includes(pat)`: substring containment. -/
def containsSub (s pat : String) : Bool :=
  subIn pat.data s.data

/-- Model of JS `String.prototype.toLowerCase()`: per-character ASCII case
mapping (every string compared case-insensitively in the source is ASCII). -/
def strToLower (s : String) : String :=
  String.mk (s.data.map Char.toLower)

/-- Result of one `handleMessage` call: the successor state, the
`webSocket.close(code, reason)` request it issued (if any), and the article
it passed to the caller's sink (if any). -/
structure HandlerResult where
  state : WsState
  closeWith : Option (ℕ × String)
  delivered : Option ArticleRec
deriving DecidableEq, Repr

/-- `handleMessage` of `BaseWebSocketClient`, parameterised — like the class
— over the subclass hooks `transformMessage` (here fixed to
`transformArticle`, the enriched variant's choice) and `getArticleIdentifier`
(`getId`).  `now` is `Date.now()` at handling time. -/
def handleMessage (getId : ArticleRec → JsVal) (s : WsState) (now : ℕ) (f : Frame) :
    HandlerResult :=
  match f with
  | .pong _ =>
      { state := { s with lastPongTime := now }, closeWith := none, delivered := none }
  | .admitMsg leaseId _ _ =>
      { state := { s with leaseId := leaseId }, closeWith := none, delivered := none }
  | .preempted _ _ =>
      { state := { s with stopFlag := true }
        closeWith := some (1000, "Preempted by server"), delivered := none }
  | .sendArticle data =>
      let transformedArticle := transformArticle (data.getD emptyArticle)
      let identifier := getId transformedArticle
      if jsTruthy identifier then
        if isDuplicate s identifier then
          { state := s, closeWith := none, delivered := none }
        else
          { state := { s with recentArticleLinks := trackArticle s.recentArticleLinks identifier }
            closeWith := none, delivered := some transformedArticle }
      else
        { state := s, closeWith := none, delivered := some transformedArticle }
  | .adminKick retryAfter =>
      let r := jsOrNat retryAfter 900000
      { state := { s with reconnectAt := now + r }
        closeWith := some (4003, "Admin kick - retry after " ++ toString r ++ "ms")
        delivered := none }
  | .errorMsg data err =>
      let lower := strToLower (errorDataOf data err)
      if containsSub lower "limit" then
        { state := { s with reconnectAt := now + 60000 }
          closeWith := some (4001, "Rate limited"), delivered := none }
      else if containsSub lower "blocked" then
        { state := { s with reconnectAt := now + 3600000 }
          closeWith := some (4002, "User blocked"), delivered := none }
      else
        { state := s, closeWith := none, delivered := none }
  | .other _ =>
      { state := s, closeWith := none, delivered := none }

/-- `WebSocketClient.getArticleIdentifier` (enriched stream): the article's
`link`. -/
def wsGetArticleIdentifier (article : ArticleRec) : JsVal :=
  article.link

/-- The base-class default `getArticleIdentifier` (raw stream): always
`null`, disabling deduplication. -/
def rawGetArticleIdentifier (_article : ArticleRec) : JsVal :=
  .undefined

/-- The transport `open` handler inside `connect`: `resetBackoff()`, clear
`reconnectAt`, stamp `lastPongTime` and `connectionStartTime`, store the
freshly generated client nonce.  (Timer starts and the first outbound frame
are side effects outside this state.) -/
def handleOpen (s : WsState) (now : ℕ) (nonce : String) : WsState :=
  { s with
    currentReconnectDelayMs := s.baseReconnectDelayMs
    reconnectAt := 0
    lastPongTime := now
    connectionStartTime := now
    clientNonce := some nonce }

/-- `resetBackoff`. -/
def resetBackoff (s : WsState) : WsState :=
  { s with currentReconnectDelayMs := s.baseReconnectDelayMs }

/-- `handleReconnect`: returns the number of milliseconds it sleeps together
with the state after it finishes.  `if (this.reconnectAt && now < this.reconnectAt)`
— a truthy (non-zero) floor strictly in the future — sleeps until the floor
and leaves the backoff untouched; otherwise it sleeps the current exponential
delay and doubles it up to `maxReconnectDelayMs`. -/
def handleReconnect (s : WsState) (now : ℕ) : ℕ × WsState :=
  if s.reconnectAt ≠ 0 ∧ now < s.reconnectAt then
    (s.reconnectAt - now, s)
  else
    (s.currentReconnectDelayMs,
     { s with currentReconnectDelayMs := min (s.currentReconnectDelayMs * 2) s.maxReconnectDelayMs })

/-- State effect of `handleClose` (logging, timer draining and the `onClose`
callback aside): close code 1008 sets the permanent stop flag.  When the flag
stays clear the source then invokes `handleReconnect` with `void` — see
`nextAttemptTimeAfterClose`. -/
def handleCloseState (s : WsState) (code : ℕ) : WsState :=
  if code = 1008 then { s with stopFlag := true } else s

/-- Instant at which the supervisor loop begins its next connect attempt
after the transport's `close` event at `closeTime`.  In the source the close
listener runs `handleClose(code, reason)` — whose last step is
`void this.handleReconnect()`, i.e. the returned promise (and its sleep) is
discarded, not awaited — and then calls `resolve()` on the promise the
`while (!this._stop)` loop is awaiting, so the loop re-enters
`new WebSocket(...)` immediately: the next attempt starts at the close time
itself, regardless of `reconnectAt` or the exponential delay. -/
def nextAttemptTimeAfterClose (_s : WsState) (closeTime : ℕ) : ℕ :=
  closeTime

/-- Instant at which the supervisor loop begins its next connect attempt when
the awaited connection promise rejects: the `catch` block runs
`await this.handleReconnect()`, so the attempt starts after the scheduled
sleep. -/
def nextAttemptTimeAfterCatch (s : WsState) (now : ℕ) : ℕ :=
  now + (handleReconnect s now).1

/-! ### Concrete fixtures used by closed theorems and witnesses -/

/-- A client state with the default configuration
(`baseReconnectDelay = 0.5 s`, `maxReconnectDelay = 10 s`) immediately after
construction. -/
def wsInit : WsState :=
  { stopFlag := false, currentReconnectDelayMs := 500, lastPongTime := 0,
    connectionStartTime := 0, reconnectAt := 0, leaseId := none, clientNonce := none,
    recentArticleLinks := [], baseReconnectDelayMs := 500, maxReconnectDelayMs := 10000 }

/-- A state whose duplicate-suppression set already holds the link `"x"`. -/
def dupState : WsState :=
  { wsInit with recentArticleLinks := [.str "x"] }

/-- An article whose link `"x"` is already in `dupState`'s duplicate set. -/
def artX : ArticleRec :=
  { emptyArticle with link := .str "x" }

/-- An article whose link `"y"` is in no fixture's duplicate set. -/
def artY : ArticleRec :=
  { emptyArticle with link := .str "y" }

/-- Ten distinct truthy identifiers: a duplicate set at full capacity. -/
def fullLinks : List JsVal :=
  [.str "a1", .str "a2", .str "a3", .str "a4", .str "a5",
   .str "a6", .str "a7", .str "a8", .str "a9", .str "a10"]

/-- A state whose duplicate-suppression set is at full capacity. -/
def fullState : WsState :=
  { wsInit with recentArticleLinks := fullLinks }

/-- An article whose fields are all native: `publishDate` a timestamp,
`confidence` the float `1`, and its single company's `confidence` the float
`0` — a value inside the documented `0.0–1.0` range. -/
def c7Article : ArticleRec :=
  { link := .str "https://example.com/a", title := .str "t", publishDate := .date 1704067200000
    confidence := .num 1, createdAt := .undefined
    companies := some [{ confidence := .num 0, extra := [("name", .str "ACME")] }]
    extra := [] }

/-- An all-native article whose company confidence is the nonzero float
`3/4`. -/
def c7NativeArticle : ArticleRec :=
  { link := .str "https://example.com/a", title := .str "t", publishDate := .date 1704067200000
    confidence := .num 1, createdAt := .undefined
    companies := some [{ confidence := .num (3/4), extra := [("name", .str "ACME")] }]
    extra := [] }

/-- A wire-form article whose `createdAt` is an ISO-8601 string. -/
def c8Article : ArticleRec :=
  { link := .str "https://example.com/a", title := .str "t", publishDate := .undefined
    confidence := .undefined, createdAt := .str "2024-01-01T00:00:00Z", companies := none
    extra := [] }

/-- A company field that is already in native form and survives the
transformer: confidence either absent or a nonzero float. -/
def companyNative (c : Company) : Prop :=
  c.confidence = .undefined ∨ ∃ q : ℚ, q ≠ 0 ∧ c.confidence = .num q

/-! ### Helper lemmas -/

/-- Mapping the company-confidence coercion over a list of `companyNative`
companies is the identity. -/
theorem company_map_native (cs : List Company) (h : ∀ c ∈ cs, companyNative c) :
    (cs.map fun company =>
      { company with confidence :=
          if jsTruthy company.confidence then jsParseFloat company.confidence
          else .undefined }) = cs := by
  induction cs with
  | nil => rfl
  | cons c rest ih =>
    have hc := h c (by simp)
    have hrest := ih (fun x hx => h x (by simp [hx]))
    simp only [List.map_cons, hrest, List.cons.injEq, and_true]
    obtain ⟨cc, cex⟩ := c
    rcases hc with hc | ⟨q, hq, hc⟩ <;> simp only at hc <;> subst hc
    · simp [jsTruthy]
    · simp [jsTruthy, hq, jsParseFloat]

/-- Two article records with equal fields are equal. -/
theorem articleRecExt (x y : ArticleRec) (h1 : x.link = y.link) (h2 : x.title = y.title)
    (h3 : x.publishDate = y.publishDate) (h4 : x.confidence = y.confidence)
    (h5 : x.createdAt = y.createdAt) (h6 : x.companies = y.companies)
    (h7 : x.extra = y.extra) : x = y := by
  cases x; cases y; simp_all

/-- The transformer never touches `link`. -/
theorem transformArticle_link (a : ArticleRec) : (transformArticle a).link = a.link := by
  obtain ⟨l, t, p, c, ca, comp, ex⟩ := a
  unfold transformArticle
  dsimp only
  split <;> cases comp <;> dsimp only <;> split <;> rfl

/-- The transformer never touches `title`. -/
theorem transformArticle_title (a : ArticleRec) : (transformArticle a).title = a.title := by
  obtain ⟨l, t, p, c, ca, comp, ex⟩ := a
  unfold transformArticle
  dsimp only
  split <;> cases comp <;> dsimp only <;> split <;> rfl

/-- The transformer never touches `createdAt`. -/
theorem transformArticle_createdAt (a : ArticleRec) :
    (transformArticle a).createdAt = a.createdAt := by
  obtain ⟨l, t, p, c, ca, comp, ex⟩ := a
  unfold transformArticle
  dsimp only
  split <;> cases comp <;> dsimp only <;> split <;> rfl

/-- The transformer never touches the fields it does not inspect. -/
theorem transformArticle_extra (a : ArticleRec) : (transformArticle a).extra = a.extra := by
  obtain ⟨l, t, p, c, ca, comp, ex⟩ := a
  unfold transformArticle
  dsimp only
  split <;> cases comp <;> dsimp only <;> split <;> rfl

/-- A `publishDate` that is already a `Date` (or absent) is preserved. -/
theorem transformArticle_publishDate (a : ArticleRec)
    (hpd : (∃ t : ℤ, a.publishDate = .date t) ∨ a.publishDate = .undefined) :
    (transformArticle a).publishDate = a.publishDate := by
  obtain ⟨l, t, p, c, ca, comp, ex⟩ := a
  simp only at hpd
  unfold transformArticle
  dsimp only
  rcases hpd with ⟨t0, rfl⟩ | rfl <;>
    split <;> cases comp <;> dsimp only <;> split <;> rfl

/-- A top-level `confidence` that is already a float (or absent) is
preserved. -/
theorem transformArticle_confidence (a : ArticleRec)
    (hcf : (∃ q : ℚ, a.confidence = .num q) ∨ a.confidence = .undefined) :
    (transformArticle a).confidence = a.confidence := by
  obtain ⟨l, t, p, c, ca, comp, ex⟩ := a
  simp only at hcf
  unfold transformArticle
  dsimp only
  rcases hcf with ⟨q, rfl⟩ | rfl <;>
    split <;> cases comp <;> dsimp only <;> split <;> rfl

/-- The `companies` array is preserved when every company is in native,
nonzero-confidence (or confidence-free) form. -/
theorem transformArticle_companies (a : ArticleRec)
    (hcomp : ∀ cs, a.companies = some cs → ∀ c ∈ cs, companyNative c) :
    (transformArticle a).companies = a.companies := by
  obtain ⟨l, t, p, c, ca, comp, ex⟩ := a
  simp only at hcomp
  unfold transformArticle
  dsimp only
  cases comp with
  | none => split <;> dsimp only <;> split <;> rfl
  | some cs =>
      split <;> dsimp only <;> split <;> dsimp only <;>
        exact congrArg some (company_map_native cs (hcomp cs rfl))

/-- The set stays within capacity whenever it starts within capacity and all
its elements are truthy (as they are: only truthy identifiers are ever
inserted). -/
theorem trackArticle_length_le (links : List JsVal) (identifier : JsVal)
    (hlen : links.length ≤ RECENT_ARTICLE_CACHE_SIZE)
    (htr : ∀ v ∈ links, jsTruthy v = true) :
    (trackArticle links identifier).length ≤ RECENT_ARTICLE_CACHE_SIZE := by
  unfold trackArticle
  dsimp only
  by_cases hmem : identifier ∈ links
  · rw [if_pos hmem, if_neg (Nat.not_lt.mpr hlen)]
    exact hlen
  · rw [if_neg hmem]
    by_cases hlong : (links ++ [identifier]).length > RECENT_ARTICLE_CACHE_SIZE
    · rw [if_pos hlong]
      cases links with
      | nil => simp [RECENT_ARTICLE_CACHE_SIZE] at hlong
      | cons hd tl =>
        have hhd : jsTruthy hd = true := htr hd (by simp)
        simp only [List.cons_append, hhd, if_true]
        simp only [List.cons_append, List.length_cons, List.length_append,
          List.length_cons, List.length_nil] at hlong hlen ⊢
        omega
    · rw [if_neg hlong]
      exact Nat.not_lt.mp hlong

/-- Inserting a fresh identifier into a full set of truthy identifiers evicts
exactly the insertion-order oldest element. -/
theorem trackArticle_evicts_oldest (links : List JsVal) (identifier : JsVal)
    (hmem : identifier ∉ links) (hfull : links.length = RECENT_ARTICLE_CACHE_SIZE)
    (htr : ∀ v ∈ links, jsTruthy v = true) :
    trackArticle links identifier = links.drop 1 ++ [identifier] := by
  unfold trackArticle
  dsimp only
  rw [if_neg hmem]
  cases links with
  | nil => simp [RECENT_ARTICLE_CACHE_SIZE] at hfull
  | cons hd tl =>
    have hhd : jsTruthy hd = true := htr hd (by simp)
    rw [if_pos (by simp only [List.cons_append, List.length_cons, List.length_append,
      List.length_nil]; simp only [List.length_cons] at hfull; simp only [RECENT_ARTICLE_CACHE_SIZE] at hfull ⊢; omega)]
    simp [hhd]

/-! ### C1 — the forced-wait floor and the clean-close reconnect path -/

/-- C1 (code bug): an `admin_kick` frame at `t₀ = 1000` with
`retryAfter = 120000` sets the floor `reconnectAt = 121000` and closes the
transport with code 4003; the resulting `close` event does not stop the loop,
and — because `handleClose` only fires `handleReconnect` with `void` while
the close listener resolves the promise the connect loop awaits — the next
connect attempt begins at time `1000`, strictly before the floor
`t₀ + W = 121000`.  The claim that no attempt begins before `t₀ + W` on every
reconnect path (the clean-close path included) fails on the code; only the
`catch` path (`nextAttemptTimeAfterCatch`) honors the floor. -/
theorem c1_floor_bypassed_on_clean_close :
    (handleMessage wsGetArticleIdentifier wsInit 1000 (.adminKick (some 120000))).state.reconnectAt
        = 121000 ∧
    (handleMessage wsGetArticleIdentifier wsInit 1000 (.adminKick (some 120000))).closeWith
        = some (4003, "Admin kick - retry after 120000ms") ∧
    (handleCloseState
        (handleMessage wsGetArticleIdentifier wsInit 1000 (.adminKick (some 120000))).state
        4003).stopFlag = false ∧
    nextAttemptTimeAfterClose
        (handleCloseState
          (handleMessage wsGetArticleIdentifier wsInit 1000 (.adminKick (some 120000))).state
          4003)
        1000 = 1000 ∧
    1000 < 121000 := by
  refine ⟨rfl, ?_, rfl, rfl, by norm_num⟩
  decide

/-! ### C2 — deduplicated delivery on the enriched stream -/

/-- C2: on the enriched stream (identifier = `link`), every article the
`sendArticle` handler delivers to the sink with a truthy identifier had an
identifier that was not in the duplicate-suppression set when the frame was
handled; and a frame whose identifier is already in the set is dropped
silently — no sink call, no state change, no close. -/
theorem c2_dedup_delivery (s : WsState) (now : ℕ) (data : Option ArticleRec) :
    (∀ b, (handleMessage wsGetArticleIdentifier s now (.sendArticle data)).delivered = some b →
        jsTruthy (wsGetArticleIdentifier b) = true →
        wsGetArticleIdentifier b ∉ s.recentArticleLinks) ∧
    (jsTruthy (wsGetArticleIdentifier (transformArticle (data.getD emptyArticle))) = true →
     wsGetArticleIdentifier (transformArticle (data.getD emptyArticle)) ∈ s.recentArticleLinks →
        handleMessage wsGetArticleIdentifier s now (.sendArticle data)
          = { state := s, closeWith := none, delivered := none }) := by
  constructor
  · intro b hb htr hmem
    simp only [handleMessage] at hb
    by_cases h1 : jsTruthy (wsGetArticleIdentifier (transformArticle (data.getD emptyArticle))) = true
    · rw [if_pos h1] at hb
      by_cases h2 : isDuplicate s (wsGetArticleIdentifier (transformArticle (data.getD emptyArticle))) = true
      · rw [if_pos h2] at hb
        simp at hb
      · rw [if_neg h2] at hb
        simp only [Option.some.injEq] at hb
        subst hb
        simp [isDuplicate] at h2
        exact h2 hmem
    · rw [if_neg h1] at hb
      simp only [Option.some.injEq] at hb
      subst hb
      exact h1 htr
  · intro htr hmem
    simp only [handleMessage]
    rw [if_pos htr, if_pos (by simp [isDuplicate, hmem])]

/-- Witness for C2: with `"x"` already in the set, replaying an article with
link `"x"` is dropped with the state untouched, while an article with the
fresh link `"y"` is delivered and its identifier was absent from the set. -/
theorem c2_dedup_delivery_witness :
    handleMessage wsGetArticleIdentifier dupState 5 (.sendArticle (some artX))
      = { state := dupState, closeWith := none, delivered := none } ∧
    wsGetArticleIdentifier (transformArticle artY) ∉ dupState.recentArticleLinks := by
  constructor
  · exact (c2_dedup_delivery dupState 5 (some artX)).2 (by decide) (by decide)
  · exact (c2_dedup_delivery dupState 5 (some artY)).1 (transformArticle artY)
      (by decide) (by decide)

/-! ### C3 — `handleReconnect` -/

/-- C3: on every invocation of `handleReconnect`, if `reconnectAt > 0`
and `now < reconnectAt` the sleep is exactly `reconnectAt − now` and the
state (in particular the exponential delay) is unchanged; otherwise the sleep
is the current exponential delay, which is then doubled and capped at
`maxReconnectDelayMs`. -/
theorem c3_handleReconnect_schedule (s : WsState) (now : ℕ) :
    (s.reconnectAt > 0 → now < s.reconnectAt →
        handleReconnect s now = (s.reconnectAt - now, s)) ∧
    (¬ (s.reconnectAt > 0 ∧ now < s.reconnectAt) →
        handleReconnect s now =
          (s.currentReconnectDelayMs,
           { s with currentReconnectDelayMs := min (s.currentReconnectDelayMs * 2) s.maxReconnectDelayMs })) := by
  constructor
  · intro h1 h2
    have hne : s.reconnectAt ≠ 0 := Nat.pos_iff_ne_zero.mp h1
    simp [handleReconnect, hne, h2]
  · intro h
    have h' : ¬ (s.reconnectAt ≠ 0 ∧ now < s.reconnectAt) := by
      intro ⟨ha, hb⟩
      exact h ⟨Nat.pos_of_ne_zero ha, hb⟩
    simp only [handleReconnect, if_neg h']

/-- Witness for C3: with `reconnectAt = 100`, `now = 40` the scheduler sleeps
`60` ms and leaves the state unchanged; with `reconnectAt = 0` it sleeps the
current `500` ms delay and doubles it to `1000`. -/
theorem c3_handleReconnect_schedule_witness :
    handleReconnect { wsInit with reconnectAt := 100 } 40
        = (60, { wsInit with reconnectAt := 100 }) ∧
    handleReconnect wsInit 40
        = (500, { wsInit with currentReconnectDelayMs := 1000 }) := by
  constructor
  · exact (c3_handleReconnect_schedule { wsInit with reconnectAt := 100 } 40).1
      (by decide) (by decide)
  · have h := (c3_handleReconnect_schedule wsInit 40).2 (by decide)
    simpa using h

/-! ### C4 — successful open resets the backoff state -/

/-- C4: the `open` handler resets the exponential delay to
`baseReconnectDelay` and clears `reconnectAt`, and a later `admit` frame
(admission) changes neither field. -/
theorem c4_open_resets_backoff (s : WsState) (now : ℕ) (nonce : String)
    (s2 : WsState) (now2 : ℕ) (l sn n : Option String) :
    (handleOpen s now nonce).currentReconnectDelayMs = s.baseReconnectDelayMs ∧
    (handleOpen s now nonce).reconnectAt = 0 ∧
    (handleMessage wsGetArticleIdentifier s2 now2 (.admitMsg l sn n)).state.currentReconnectDelayMs
        = s2.currentReconnectDelayMs ∧
    (handleMessage wsGetArticleIdentifier s2 now2 (.admitMsg l sn n)).state.reconnectAt
        = s2.reconnectAt :=
  ⟨rfl, rfl, rfl, rfl⟩

/-! ### C5 — capacity bound and insertion-order eviction -/

/-- C5: whenever the duplicate-suppression set holds at most 10 identifiers,
all of them truthy (the only kind the handler ever inserts), it still holds
at most 10 after any message is handled; and an insertion that would exceed
the capacity evicts exactly the insertion-order oldest identifier. -/
theorem c5_cache_bound_and_eviction (s : WsState) (now : ℕ) (f : Frame)
    (hlen : s.recentArticleLinks.length ≤ RECENT_ARTICLE_CACHE_SIZE)
    (htr : ∀ v ∈ s.recentArticleLinks, jsTruthy v = true) :
    (handleMessage wsGetArticleIdentifier s now f).state.recentArticleLinks.length
        ≤ RECENT_ARTICLE_CACHE_SIZE ∧
    (∀ identifier, jsTruthy identifier = true → identifier ∉ s.recentArticleLinks →
        s.recentArticleLinks.length = RECENT_ARTICLE_CACHE_SIZE →
        trackArticle s.recentArticleLinks identifier
          = s.recentArticleLinks.drop 1 ++ [identifier]) := by
  constructor
  · cases f with
    | sendArticle data =>
        simp only [handleMessage]
        split
        · split
          · exact hlen
          · exact trackArticle_length_le _ _ hlen htr
        · exact hlen
    | pong t => exact hlen
    | admitMsg l sn n => exact hlen
    | preempted r nl => exact hlen
    | adminKick r => exact hlen
    | errorMsg d e =>
        simp only [handleMessage]
        split
        · exact hlen
        · split
          · exact hlen
          · exact hlen
    | other a => exact hlen
  · intro identifier _ h2 h3
    exact trackArticle_evicts_oldest _ _ h2 h3 htr

/-- Witness for C5: a full 10-element set stays at 10 after a fresh article
is handled, and tracking the fresh identifier `"a11"` evicts exactly the
oldest entry `"a1"`. -/
theorem c5_cache_bound_and_eviction_witness :
    (handleMessage wsGetArticleIdentifier fullState 5 (.sendArticle (some artY))).state.recentArticleLinks.length
        ≤ RECENT_ARTICLE_CACHE_SIZE ∧
    trackArticle fullLinks (.str "a11") = fullLinks.drop 1 ++ [.str "a11"] := by
  have h := c5_cache_bound_and_eviction fullState 5 (.sendArticle (some artY))
    (by decide) (by decide)
  exact ⟨h.1, h.2 (.str "a11") (by decide) (by decide) (by decide)⟩

/-! ### C6 — the `error` frame branch -/

/-- C6: for an `error` frame, when the resolved `data`-or-`error` string
contains `"limit"` case-insensitively the handler sets
`reconnectAt = now + 60000` and closes with code 4001; otherwise, when it
contains `"blocked"` case-insensitively, it sets
`reconnectAt = now + 3600000` and closes with code 4002; otherwise the state
is unchanged, no close is issued and nothing is delivered — the frame is only
logged. -/
theorem c6_error_frames (s : WsState) (now : ℕ) (data err : Option String) :
    (containsSub (strToLower (errorDataOf data err)) "limit" = true →
        handleMessage wsGetArticleIdentifier s now (.errorMsg data err)
          = { state := { s with reconnectAt := now + 60000 }
              closeWith := some (4001, "Rate limited"), delivered := none }) ∧
    (containsSub (strToLower (errorDataOf data err)) "limit" = false →
     containsSub (strToLower (errorDataOf data err)) "blocked" = true →
        handleMessage wsGetArticleIdentifier s now (.errorMsg data err)
          = { state := { s with reconnectAt := now + 3600000 }
              closeWith := some (4002, "User blocked"), delivered := none }) ∧
    (containsSub (strToLower (errorDataOf data err)) "limit" = false →
     containsSub (strToLower (errorDataOf data err)) "blocked" = false →
        handleMessage wsGetArticleIdentifier s now (.errorMsg data err)
          = { state := s, closeWith := none, delivered := none }) := by
  refine ⟨fun h1 => by simp [handleMessage, h1],
          fun h1 h2 => by simp [handleMessage, h1, h2],
          fun h1 h2 => by simp [handleMessage, h1, h2]⟩

/-- Witness for C6: a mixed-case "Rate LIMIT exceeded" closes 4001 with a
60 s floor, "user BLOCKED" (resolved from the `error` key since `data` is
absent) closes 4002 with a 1 h floor, and "oops" leaves the state untouched. -/
theorem c6_error_frames_witness :
    handleMessage wsGetArticleIdentifier wsInit 7 (.errorMsg (some "Rate LIMIT exceeded") none)
      = { state := { wsInit with reconnectAt := 60007 }
          closeWith := some (4001, "Rate limited"), delivered := none } ∧
    handleMessage wsGetArticleIdentifier wsInit 7 (.errorMsg none (some "user BLOCKED"))
      = { state := { wsInit with reconnectAt := 3600007 }
          closeWith := some (4002, "User blocked"), delivered := none } ∧
    handleMessage wsGetArticleIdentifier wsInit 7 (.errorMsg (some "") (some "oops"))
      = { state := wsInit, closeWith := none, delivered := none } :=
  ⟨(c6_error_frames wsInit 7 (some "Rate LIMIT exceeded") none).1 (by decide),
   (c6_error_frames wsInit 7 none (some "user BLOCKED")).2.1 (by decide) (by decide),
   (c6_error_frames wsInit 7 (some "") (some "oops")).2.2 (by decide) (by decide)⟩

/-! ### C7 — transformation of an already-native article -/

/-- C7 (counterexample): transforming `c7Article`, whose fields are all
already native, is *not* a no-op — the company confidence `0` is falsy, so
`company.confidence ? parseFloat(company.confidence) : undefined` replaces it
by `undefined`. -/
theorem c7_native_notNoop_counterexample :
    transformArticle c7Article ≠ c7Article := by
  decide

/-- C7 (amended): transforming an article whose `publishDate` is a native
timestamp (or absent), whose `confidence` is a float (or absent), and each of
whose companies has a confidence that is absent or a *nonzero* float, is a
no-op.  The nonzero proviso is forced by the counterexample: a company
confidence of `0.0` is falsy and is replaced by `undefined`. -/
theorem c7_transform_native_noop (a : ArticleRec)
    (hpd : (∃ t : ℤ, a.publishDate = .date t) ∨ a.publishDate = .undefined)
    (hcf : (∃ q : ℚ, a.confidence = .num q) ∨ a.confidence = .undefined)
    (hcomp : ∀ cs, a.companies = some cs → ∀ c ∈ cs, companyNative c) :
    transformArticle a = a :=
  articleRecExt _ _ (transformArticle_link a) (transformArticle_title a)
    (transformArticle_publishDate a hpd) (transformArticle_confidence a hcf)
    (transformArticle_createdAt a) (transformArticle_companies a hcomp)
    (transformArticle_extra a)

/-- Witness for C7 (amended): the all-native article with company confidence
`3/4` is transformed to itself. -/
theorem c7_transform_native_noop_witness :
    transformArticle c7NativeArticle = c7NativeArticle := by
  refine c7_transform_native_noop _ (Or.inl ⟨1704067200000, rfl⟩) (Or.inl ⟨1, rfl⟩) ?_
  intro cs hcs c hc
  have hcs' : some [({ confidence := .num (3/4), extra := [("name", .str "ACME")] } : Company)]
      = some cs := hcs
  injection hcs' with h
  subst h
  simp only [List.mem_singleton] at hc
  subst hc
  exact Or.inr ⟨3/4, by norm_num, rfl⟩

/-! ### C8 — `createdAt` is not parsed by the transformer -/

/-- C8 (code bug): `transformArticle` leaves `createdAt` exactly as it
arrived — on the failing input it is still the string
`"2024-01-01T00:00:00Z"`, not a native timestamp — and in general the
transformer copies `createdAt` verbatim for every article. -/
theorem c8_createdAt_left_unparsed :
    (transformArticle c8Article).createdAt = JsVal.str "2024-01-01T00:00:00Z" ∧
    ∀ a : ArticleRec, (transformArticle a).createdAt = a.createdAt :=
  ⟨rfl, fun a => transformArticle_createdAt a⟩

/-! ### C9 — a falsy identifier bypasses the duplicate filter -/

/-- C9: for a `sendArticle` frame on the enriched stream whose transformed
article has a missing or empty-string `link`, the duplicate filter is
bypassed entirely: the article is delivered to the sink unconditionally and
the whole state — the duplicate-suppression set included — is unchanged. -/
theorem c9_falsy_link (s : WsState) (now : ℕ) (data : Option ArticleRec)
    (h : (transformArticle (data.getD emptyArticle)).link = .undefined ∨
         (transformArticle (data.getD emptyArticle)).link = .str "") :
    handleMessage wsGetArticleIdentifier s now (.sendArticle data)
      = { state := s, closeWith := none
          delivered := some (transformArticle (data.getD emptyArticle)) } := by
  have htr : jsTruthy (wsGetArticleIdentifier (transformArticle (data.getD emptyArticle))) = false := by
    rcases h with h | h <;> simp [wsGetArticleIdentifier, h, jsTruthy]
  simp [handleMessage, htr]

/-- Witness for C9: an article with no `link` is delivered even though the
state already holds a previous identifier, and the state is unchanged. -/
theorem c9_falsy_link_witness :
    handleMessage wsGetArticleIdentifier dupState 5 (.sendArticle (some emptyArticle))
      = { state := dupState, closeWith := none
          delivered := some (transformArticle emptyArticle) } :=
  c9_falsy_link dupState 5 (some emptyArticle) (Or.inl (by decide))

/-! ### C10 — `admin_kick` with `retryAfter = 0` -/

/-- C10: an `admin_kick` frame carrying `retryAfter = 0` is handled
exactly like one with no `retryAfter` at all — `0` is falsy under
`msg.retryAfter || 900000` — so the floor becomes `now + 900000` and the
transport is closed with code 4003. -/
theorem c10_admin_kick_zero_retry (s : WsState) (now : ℕ) :
    handleMessage wsGetArticleIdentifier s now (.adminKick (some 0))
        = handleMessage wsGetArticleIdentifier s now (.adminKick none) ∧
    (handleMessage wsGetArticleIdentifier s now (.adminKick (some 0))).state.reconnectAt
        = now + 900000 ∧
    (handleMessage wsGetArticleIdentifier s now (.adminKick (some 0))).closeWith
        = some (4003, "Admin kick - retry after 900000ms") := by
  refine ⟨rfl, rfl, ?_⟩
  simp only [handleMessage, jsOrNat]
  decide
